import Mathlib

/-!
Shallow embedding of `bet/calculateP/voronoiBoundingPoints.py`.

Numpy arrays of rationals are modelled as `List ℚ` (1-D) and
`List (List ℚ)` (2-D, list of rows); per-dimension vectorised numpy
expressions are modelled as functions of the dimension index `d`,
reading their inputs with `List.getD`.  Machine floats are modelled as
exact rationals; the element-wise float division `1/0.0 = inf` in
`histogramdd_volumes` is modelled as `Option ℚ` with `none` standing
for the non-finite result.  A Python function that can either `return
None` or return a value is modelled with `Option`; one that can raise
is modelled with `Except String`.
-/

/-- Model of `np.linspace a b n`: `n` evenly spaced samples from `a` to `b`,
endpoints included (exact in ℚ). -/
def linspace (a b : ℚ) (n : ℕ) : List ℚ :=
  match n with
  | 0 => []
  | 1 => [a]
  | Nat.succ (Nat.succ m) =>
      (List.range (m + 2)).map (fun i : ℕ => a + (i : ℚ) * (b - a) / ((m : ℚ) + 1))

/-- All multi-indices of a grid with the given per-dimension sizes, in
row-major ("ij") order: the last index varies fastest.  This is the
order in which `numpy.ravel` (C order) enumerates the entries of an
array produced by `np.meshgrid(..., indexing='ij')`, and also the
order of `H.ravel()` for the histogram array `H`. -/
def gridIndices : List ℕ → List (List ℕ)
  | [] => [[]]
  | n :: ns => (List.range n).flatMap (fun i => (gridIndices ns).map (fun ix => i :: ix))

/-- The raveled `d`-th coordinate array of
`np.meshgrid(ladders[0], ..., ladders[k], indexing='ij')`: entry number
`j` is the `d`-th coordinate of the `j`-th grid node in row-major
order. -/
def meshRavel (ladders : List (List ℚ)) (d : ℕ) : List ℚ :=
  (gridIndices (ladders.map List.length)).map
    (fun ix => (ladders.getD d []).getD (ix.getD d 0) 0)

/-- A numpy array of rank 1 or rank 2, as produced by the `points`
branches of the grid generators (`points = interior_...[0]` is 1-D,
the `np.vstack` results are 2-D). -/
inductive NpArr where
  | arr1 (data : List ℚ)
  | arr2 (rows : List (List ℚ))
deriving DecidableEq

/-- The meshgrid/vstack block shared verbatim by
`center_and_layer1_points` (lines 64-84) and
`center_and_layer2_points` (lines 171-191): for 1 dimension the bare
ladder, for 2 to 4 dimensions `np.vstack((x.ravel(), y.ravel(), ...))`
of the `indexing='ij'` meshgrid (one ROW per dimension), and for more
than 4 dimensions `points = None`. -/
def meshgrid_vstack (ladders : List (List ℚ)) : Option NpArr :=
  if ladders.length = 1 then some (.arr1 (ladders.getD 0 []))
  else if ladders.length ≤ 4 ∧ 2 ≤ ladders.length then
    some (.arr2 ((List.range ladders.length).map (meshRavel ladders)))
  else none

/-- Line 37: `sur_width[d] = sur_domain[d,1] - sur_domain[d,0]` (line 37). -/
def surW (dom : List (ℚ × ℚ)) (d : ℕ) : ℚ :=
  (dom.getD d (0, 0)).2 - (dom.getD d (0, 0)).1

/-- Line 39: `rect_width[d] = r_ratio * sur_width[d]` (line 39). -/
def rectW (r : ℚ) (dom : List (ℚ × ℚ)) (d : ℕ) : ℚ :=
  r * surW dom d

/-- Line 41: `rect_domain[d,0] = center[d] - .5*rect_width[d]` (line 41). -/
def rectLo (center : List ℚ) (r : ℚ) (dom : List (ℚ × ℚ)) (d : ℕ) : ℚ :=
  center.getD d 0 - rectW r dom d / 2

/-- Line 42: `rect_domain[d,1] = center[d] + .5*rect_width[d]` (line 42). -/
def rectHi (center : List ℚ) (r : ℚ) (dom : List (ℚ × ℚ)) (d : ℕ) : ℚ :=
  center.getD d 0 + rectW r dom d / 2

/-- Line 54: `layer1_left[d] = rect_domain[d,0] - rect_width[d]/(2*center_pts_per_edge[d])`
(line 54, with `center_pts_per_edge` taken as a numpy integer array so
that the arithmetic is element-wise). -/
def layer1Lo (cpe : List ℕ) (center : List ℚ) (r : ℚ) (dom : List (ℚ × ℚ)) (d : ℕ) : ℚ :=
  rectLo center r dom d - rectW r dom d / (2 * (cpe.getD d 0 : ℚ))

/-- Line 55: `layer1_right[d] = rect_domain[d,1] + rect_width[d]/(2*center_pts_per_edge[d])`
(line 55). -/
def layer1Hi (cpe : List ℕ) (center : List ℚ) (r : ℚ) (dom : List (ℚ × ℚ)) (d : ℕ) : ℚ :=
  rectHi center r dom d + rectW r dom d / (2 * (cpe.getD d 0 : ℚ))

/-- Lines 60-61 and identically 158-159: `int_l1 = np.linspace(layer1_left[dim], layer1_right[dim],
center_pts_per_edge[dim]+2)` (lines 60-61 and identically 158-159). -/
def int_l1 (cpe : List ℕ) (center : List ℚ) (r : ℚ) (dom : List (ℚ × ℚ)) (d : ℕ) : List ℚ :=
  linspace (layer1Lo cpe center r dom d) (layer1Hi cpe center r dom d)
    (cpe.getD d 0 + 2)

/-- Containment check `if np.all(np.greater_equal(sur_domain[:,0], rect_domain[:,0]))`
(line 44 and identically line 131): true iff in EVERY dimension the
surrounding domain's lower bound is ≥ the hyperrectangle's lower
bound.  Note `np.all`, not `np.any`. -/
def lowerCheck (center : List ℚ) (r : ℚ) (dom : List (ℚ × ℚ)) : Bool :=
  (List.range dom.length).all
    (fun d => decide ((dom.getD d (0, 0)).1 ≥ rectLo center r dom d))

/-- Containment check `elif np.all(np.less_equal(sur_domain[:,1], rect_domain[:,1]))`
(line 48 and identically line 135). -/
def upperCheck (center : List ℚ) (r : ℚ) (dom : List (ℚ × ℚ)) : Bool :=
  (List.range dom.length).all
    (fun d => decide ((dom.getD d (0, 0)).2 ≤ rectHi center r dom d))

/-- Function `center_and_layer1_points` (lines 4-86).  Returns `none` for the
silent `return None` paths (`r_ratio > 1`, line 32; the two
containment checks, lines 44-51); otherwise returns the
`(points, interior_and_layer1)` tuple, where `points` is itself
`none` when the dimension exceeds 4 (line 83). -/
def center_and_layer1_points (cpe : List ℕ) (center : List ℚ) (r : ℚ)
    (dom : List (ℚ × ℚ)) : Option (Option NpArr × List (List ℚ)) :=
  if 1 < r then none
  else if lowerCheck center r dom then none
  else if upperCheck center r dom then none
  else
    let ladders := (List.range dom.length).map (int_l1 cpe center r dom)
    some (meshgrid_vstack ladders, ladders)

/-- Function `center_and_layer2_points` (lines 88-193).  The `return None`
paths (lines 119-138) are as in `center_and_layer1_points`.  When
`r_ratio < 1` the block at lines 144-152 runs and line 152 reads the
not-yet-assigned local `layer2_right`
(`layer2_right = layer2_right + 2*dist2sur_right`), raising an
`UnboundLocalError` before any ladder is built.  When `r_ratio == 1`
that block is skipped, `interior_and_doublelayer` receives exactly
`int_l1` for every dimension (line 169), and the same meshgrid/vstack
block as in `center_and_layer1_points` builds the points. -/
def center_and_layer2_points (cpe : List ℕ) (center : List ℚ) (r : ℚ)
    (dom : List (ℚ × ℚ)) :
    Except String (Option (Option NpArr × List (List ℚ) × List (List ℚ))) :=
  if 1 < r then .ok none
  else if lowerCheck center r dom then .ok none
  else if upperCheck center r dom then .ok none
  else if r < 1 then
    .error "UnboundLocalError: local variable layer2_right referenced before assignment"
  else
    let ladders := (List.range dom.length).map (int_l1 cpe center r dom)
    .ok (some (meshgrid_vstack ladders, ladders, ladders))

/-- One dimension of `(points_dim[1:] + points_dim[:-1])/2`: the list
of midpoints of consecutive entries. -/
def midpoints (l : List ℚ) : List ℚ :=
  (l.zip l.tail).map (fun p => (p.1 + p.2) / 2)

/-- Function `edges_from_points` (lines 266-285): per-dimension midpoints of
consecutive voronoi points. -/
def edges_from_points (points : List (List ℚ)) : List (List ℚ) :=
  points.map midpoints

/-- Function `points_from_edges` (lines 287-312): the loop at lines 309-311
computes the per-dimension bin centers (midpoints of consecutive
edges), but line 312 then evaluates `np.empty(dimensions)` where the
name `dimensions` is not defined anywhere, so every call raises a
`NameError` and the computed centers are discarded (the function also
has no `return` statement). -/
def points_from_edges (edges : List (List ℚ)) : Except String (List (List ℚ)) :=
  let _centers := edges.map midpoints
  .error "NameError: name dimensions is not defined"

/-- The bin index that `np.histogramdd` assigns to coordinate `x` for
the (sorted) edge ladder `e`: `none` if `x` lies outside
`[e.head, e.last]` or there are fewer than two edges, otherwise the
largest `i` with `e[i] ≤ x`, capped at `e.length - 2` so that the
rightmost bin is closed on both sides. -/
def binIndex (e : List ℚ) (x : ℚ) : Option ℕ :=
  match e with
  | [] => none
  | [_] => none
  | e0 :: e1 :: rest =>
      if x < e0 ∨ (e1 :: rest).getLastD e1 < x then none
      else some (min ((e.countP (fun y => decide (y ≤ x))) - 1) (e.length - 2))

/-- The multi-dimensional histogram cell of point `p` for the edge
grid `edges`: one `binIndex` per dimension, `none` if `p` falls
outside the grid in any dimension. -/
def cellOf (edges : List (List ℚ)) (p : List ℚ) : Option (List ℕ) :=
  if p.length = edges.length then
    (edges.zip p).mapM (fun ep => binIndex ep.1 ep.2)
  else none

/-- The entry of the histogram array `H` at a given multi-index: the
number of points binned into that cell. -/
def countCell (edges : List (List ℚ)) (points : List (List ℚ)) (c : List ℕ) : ℕ :=
  (points.filter (fun p => cellOf edges p == some c)).length

/-- The multi-indices of all histogram cells in the row-major order in
which `H.ravel()` enumerates them; dimension `d` has
`edges[d].length - 1` cells. -/
def allCells (edges : List (List ℚ)) : List (List ℕ) :=
  gridIndices (edges.map (fun e => e.length - 1))

/-- Function `histogramdd_volumes` (lines 314-334): `H, _ = np.histogramdd(points,
edges)`, then the element-wise float division `volume = 1/(H *
points.shape[0])` and `volume.ravel()`.  Each entry is the volume of
one cell, in row-major order; a zero-count cell makes the float
division produce a non-finite value (`1/0.0`), modelled here as
`none`. -/
def histogramdd_volumes (edges : List (List ℚ)) (points : List (List ℚ)) :
    List (Option ℚ) :=
  (allCells edges).map (fun c =>
    let denom : ℚ := (countCell edges points c : ℚ) * (points.length : ℚ)
    if denom = 0 then none else some (1 / denom))

/-- Numpy broadcasting of two shapes, innermost dimension first
(shapes reversed): sizes are compatible when equal or when one of
them is 1. -/
def bcRev : List ℕ → List ℕ → Option (List ℕ)
  | [], ys => some ys
  | xs, [] => some xs
  | x :: xs, y :: ys =>
      if x = y then (bcRev xs ys).map (fun s => x :: s)
      else if x = 1 then (bcRev xs ys).map (fun s => y :: s)
      else if y = 1 then (bcRev xs ys).map (fun s => x :: s)
      else none

/-- Numpy broadcasting of two shapes (aligned from the trailing
dimension). -/
def broadcast2 (xs ys : List ℕ) : Option (List ℕ) :=
  (bcRev xs.reverse ys.reverse).map List.reverse

/-- The shape of `np.all(a, axis=1)` for an array of shape `s`:
axis 1 is removed; fails if the array has fewer than two axes. -/
def np_all_axis1 (s : List ℕ) : Option (List ℕ) :=
  if 2 ≤ s.length then some (s.eraseIdx 1) else none

/-- Function `simple_fun_approximation_uniform` (lines 336-366), modelled at the
level of array shapes, which is where every call fails:

* `rect_left = np.repeat([rect_domain[:,0]], N, 0)` (line 358) has
  shape `(N, mr)` where `mr = rect_domain.length`;
* `rect_right = np.repeat([rect_domain[:1,]], N, 0)` (line 359) —
  note the slice `[:1,]`, the FIRST ROW, not the column of maxima —
  has shape `(N, 1, 2)`;
* line 360 broadcasts `points` (shape `(N, mp)`) against `rect_left`
  and reduces with `np.all(..., axis=1)`;
* line 361 broadcasts `points` against the 3-D `rect_right` and
  reduces with `np.all(..., axis=1)`, leaving a 2-D mask;
* line 362 broadcasts the two masks with `np.logical_and`;
* line 364 indexes the 1-D `rho_D_M` (shape `(volumes.length,)`) with
  the resulting boolean mask, which is only legal if the mask has
  exactly that shape;
* line 365 would evaluate `spatial.KDTree(points)`, but the module
  only does `import numpy as np`, so `spatial` is an undefined name.

Each failed step raises, so the result is always an error. -/
def simple_fun_approximation_uniform (points : List (List ℚ)) (volumes : List ℚ)
    (rect_domain : List (ℚ × ℚ)) : Except String (List ℚ × List (List ℚ)) :=
  let N := points.length
  let mp := ((points.head?).map List.length).getD 0
  let mr := rect_domain.length
  match broadcast2 [N, mp] [N, mr] with
  | none => .error "ValueError: operands could not be broadcast together"
  | some sge =>
    match np_all_axis1 sge with
    | none => .error "AxisError: axis 1 is out of bounds"
    | some sAllGe =>
      match broadcast2 [N, mp] [N, 1, 2] with
      | none => .error "ValueError: operands could not be broadcast together"
      | some sle =>
        match np_all_axis1 sle with
        | none => .error "AxisError: axis 1 is out of bounds"
        | some sAllLe =>
          match broadcast2 sAllGe sAllLe with
          | none => .error "ValueError: operands could not be broadcast together"
          | some sInside =>
            if sInside = [volumes.length] then
              .error "NameError: name spatial is not defined"
            else
              .error "IndexError: too many indices for array"

/-- True iff the result of a modelled Python call is an uncaught
exception. -/
def isErr {α : Type} : Except String α → Bool
  | .error _ => true
  | .ok _ => false

/-- Modelled from the spec: the membership test the spec ascribes to
`uniformDensity` — every coordinate of `p` within the corresponding
bounds of the target region, inclusive on both sides.  Stated only for
comparison with what the code does; the code itself never computes a
usable inside mask. -/
def specInsideRect (p : List ℚ) (rect : List (ℚ × ℚ)) : Bool :=
  p.length = rect.length ∧
    (p.zip rect).all (fun xb => decide (xb.2.1 ≤ xb.1 ∧ xb.1 ≤ xb.2.2))

/-- The shape of a modelled numpy array (rank 2 shapes are read off
the first row; all rows produced by `meshgrid_vstack` have equal
length). -/
def npShape : NpArr → List ℕ
  | .arr1 data => [data.length]
  | .arr2 rows => [rows.length, (rows.getD 0 []).length]

/-- Modelled from the spec: the point set as the spec describes it —
"the full Cartesian product of per-dimension ladders flattened in
row-major (ij) order, shape (total_points, mdim)", i.e. one ROW of
length `mdim` per grid node.  Used to compare against the layout the
code actually returns. -/
def specPointSet (ladders : List (List ℚ)) : List (List ℚ) :=
  (gridIndices (ladders.map List.length)).map
    (fun ix => (List.range ladders.length).map
      (fun d => (ladders.getD d []).getD (ix.getD d 0) 0))

/-- Claim C2 (code_bug): at any valid input with ratio strictly below
one — here the spec's own concrete scenario — `center_and_layer2_points`
raises an `UnboundLocalError`: line 152 reads the not-yet-assigned
local `layer2_right` (`layer2_right = layer2_right + 2*dist2sur_right`,
a typo for `layer1_right + ...`), so the second layer, and the ladder
whose outermost edge should land on the domain boundary, are never
built. -/
theorem c2_layer2_unbound_local :
    center_and_layer2_points [2, 2] [1/2, 1/2] (1/2) [(0, 1), (0, 1)]
      = .error "UnboundLocalError: local variable layer2_right referenced before assignment" := by
  with_unfolding_all rfl

/-- Claim C2 supporting fact: the assignment the comments at lines
150-151 intend, `layer2_right = layer1_right + 2*(sur_domain[:,1] -
layer1_right)`, would indeed put the edge (midpoint) between the
layer-1 and layer-2 anchors exactly on the surrounding domain's upper
boundary. -/
theorem layer2_intent_midpoint (cpe : List ℕ) (center : List ℚ) (r : ℚ)
    (dom : List (ℚ × ℚ)) (d : ℕ) :
    (layer1Hi cpe center r dom d +
        (layer1Hi cpe center r dom d +
          2 * ((dom.getD d (0, 0)).2 - layer1Hi cpe center r dom d))) / 2
      = (dom.getD d (0, 0)).2 := by
  ring

/-- Claim C3 (confirmed): with `r_ratio = 1` the double-layer
construction degenerates to the single-layer one — for every
`center_pts_per_edge`, `center` and `sur_domain`, the branch at
line 144 is skipped (so no `UnboundLocalError` and no second layer),
`interior_and_doublelayer` equals `interior_and_layer1`, the silent
`None` returns coincide with those of `center_and_layer1_points`, and
the returned point set is identical to the one
`center_and_layer1_points` returns. -/
theorem c3_ratio_one_degenerates (cpe : List ℕ) (center : List ℚ)
    (dom : List (ℚ × ℚ)) :
    center_and_layer2_points cpe center 1 dom
      = .ok ((center_and_layer1_points cpe center 1 dom).map
          (fun pr => (pr.1, pr.2, pr.2))) := by
  unfold center_and_layer2_points center_and_layer1_points
  have h1 : ¬ ((1 : ℚ) < 1) := lt_irrefl 1
  simp only [h1, if_false]
  split_ifs <;> rfl

/-- Claim C4 counterexample: a hyperrectangle whose lower face in
dimension 0 lies strictly OUTSIDE the surrounding domain
(`rect_domain[0,0] = -1/20 < 0 = sur_domain[0,0]`), so it is not
strictly interior — yet `center_and_layer1_points` does not fail; it
returns a usable point set. -/
theorem c4_counterexample :
    rectLo [1/5, 1/2] (1/2) [(0, 1), (0, 1)] 0 < (0 : ℚ)
    ∧ (center_and_layer1_points [2, 2] [1/5, 1/2] (1/2) [(0, 1), (0, 1)]).isSome = true := by
  constructor
  · norm_num [rectLo, rectW, surW]
  · with_unfolding_all rfl

/-- Claim C4 (corrected): the actual failure behaviour of both grid
generators.  They return the silent failure `None` (no `DomainError`
exception exists) exactly when `r_ratio > 1`, or when EVERY
dimension's lower face fails strict interiority
(`np.all(np.greater_equal(sur_domain[:,0], rect_domain[:,0]))`), or
when EVERY dimension's upper face fails; a hyperrectangle that
violates containment in only some dimensions is accepted. -/
theorem c4_failure_characterization (cpe : List ℕ) (center : List ℚ) (r : ℚ)
    (dom : List (ℚ × ℚ)) :
    (center_and_layer1_points cpe center r dom = none
      ↔ (1 < r ∨ lowerCheck center r dom = true ∨ upperCheck center r dom = true))
    ∧ (center_and_layer2_points cpe center r dom = .ok none
      ↔ (1 < r ∨ lowerCheck center r dom = true ∨ upperCheck center r dom = true)) := by
  constructor
  · unfold center_and_layer1_points
    split_ifs <;> simp_all
  · unfold center_and_layer2_points
    split_ifs <;> simp_all

/-- Claim C9 (code_bug): `points_from_edges` never returns the
midpoint centers its docstring promises — every call raises a
`NameError` because line 312 evaluates `np.empty(dimensions)` with
`dimensions` undefined (and the function has no `return`). -/
theorem c9_points_from_edges_raises (edges : List (List ℚ)) :
    points_from_edges edges = .error "NameError: name dimensions is not defined" :=
  rfl

/-- Claim C9 supporting fact: for the centers the loop at lines
309-311 does compute, the round trip `edges_from_points ∘ (per-dim
centers)` recovers each interior edge only approximately — the
recovered value is the weighted mean `(e i + 2*e (i+1) + e (i+2))/4`
of three consecutive original edges, hence exact only for evenly
spaced edges. -/
theorem midpoints_roundtrip (e0 e1 e2 : ℚ) (rest : List ℚ) :
    (midpoints (midpoints (e0 :: e1 :: e2 :: rest))).getD 0 0
      = (e0 + 2 * e1 + e2) / 4 := by
  simp [midpoints]
  ring

/-- Claim C6 counterexample: a call in which a point lies inside the
target region (by the spec's own inclusive membership test), yet no
density summing to one is returned — the call raises an `IndexError`
(a consequence of the mis-transposed slice `rect_domain[:1,]` at line
359), and in no branch of the function does an `EmptySupportError`
exist. -/
theorem c6_counterexample :
    specInsideRect [1/2, 1/2] [(0, 1), (0, 1)] = true
    ∧ simple_fun_approximation_uniform [[1/2, 1/2]] [1] [(0, 1), (0, 1)]
        = .error "IndexError: too many indices for array" := by
  constructor
  · with_unfolding_all rfl
  · with_unfolding_all rfl

/-- Claim C6 (corrected): `simple_fun_approximation_uniform` never
returns a density at all.  For every input the comparison against the
wrongly sliced `rect_right` (line 359) produces arrays whose shapes
cannot be combined with the lower-bound mask, so the call raises a
broadcasting or indexing error (and would hit the undefined name
`spatial` even if the shapes agreed); no `EmptySupportError` is raised
when the target region is empty, and no sum-to-one guarantee exists. -/
theorem c6_always_raises (points : List (List ℚ)) (volumes : List ℚ)
    (rect_domain : List (ℚ × ℚ)) :
    isErr (simple_fun_approximation_uniform points volumes rect_domain) = true := by
  unfold simple_fun_approximation_uniform
  dsimp only
  repeat' split
  all_goals rfl

/-- Claim C7 (code_bug): line 359 slices `rect_domain[:1,]` (the first
ROW of the rectangle, shape `(1,2)`) where the upper-bound column
`rect_domain[:,1]` was meant, so the upper-bound comparison is made
against a 3-D array; at this input — three 2-D points, one of them
inside the target region — the masks cannot be combined and the call
raises a `ValueError` instead of marking points inside and assigning
`volumes[i]/sum(volumes[inside])`. -/
theorem c7_wrong_slice_raises :
    simple_fun_approximation_uniform
        [[1/2, 1/2], [1/4, 3/4], [9/10, 1/2]] [1/3, 1/3, 1/3] [(0, 1), (0, 1)]
      = .error "ValueError: operands could not be broadcast together"
    ∧ specInsideRect [1/2, 1/2] [(0, 1), (0, 1)] = true := by
  constructor
  · with_unfolding_all rfl
  · with_unfolding_all rfl

/-- Claim C8 (code_bug): for the 2-D reference input the point set the
code builds does consist of the row-major ("ij") Cartesian product of
the per-dimension ladders, but it is returned as
`np.vstack((x.ravel(), y.ravel()))`, an array of shape
`(mdim, total_points) = (2, 16)` — the TRANSPOSE of the
`(total_points, mdim) = (16, 2)` layout the claim (and the function's
own docstring) states. -/
theorem c8_points_shape_transposed :
    center_and_layer1_points [2, 2] [1/2, 1/2] (1/2) [(0, 1), (0, 1)]
      = some (some (NpArr.arr2
          [[1/8, 1/8, 1/8, 1/8, 3/8, 3/8, 3/8, 3/8,
            5/8, 5/8, 5/8, 5/8, 7/8, 7/8, 7/8, 7/8],
           [1/8, 3/8, 5/8, 7/8, 1/8, 3/8, 5/8, 7/8,
            1/8, 3/8, 5/8, 7/8, 1/8, 3/8, 5/8, 7/8]]),
          [[1/8, 3/8, 5/8, 7/8], [1/8, 3/8, 5/8, 7/8]])
    ∧ npShape (NpArr.arr2
          [[1/8, 1/8, 1/8, 1/8, 3/8, 3/8, 3/8, 3/8,
            5/8, 5/8, 5/8, 5/8, 7/8, 7/8, 7/8, 7/8],
           [1/8, 3/8, 5/8, 7/8, 1/8, 3/8, 5/8, 7/8,
            1/8, 3/8, 5/8, 7/8, 1/8, 3/8, 5/8, 7/8]]) = [2, 16]
    ∧ List.transpose
          [[1/8, 1/8, 1/8, 1/8, 3/8, 3/8, 3/8, 3/8,
            5/8, 5/8, 5/8, 5/8, 7/8, 7/8, 7/8, 7/8],
           [1/8, 3/8, 5/8, 7/8, 1/8, 3/8, 5/8, 7/8,
            1/8, 3/8, 5/8, 7/8, 1/8, 3/8, 5/8, 7/8]]
        = specPointSet [[1/8, 3/8, 5/8, 7/8], [1/8, 3/8, 5/8, 7/8]]
    ∧ (specPointSet [[1/8, 3/8, 5/8, 7/8], [1/8, 3/8, 5/8, 7/8]]).length = 16 := by
  refine ⟨?_, ?_, ?_, ?_⟩
  · with_unfolding_all rfl
  · with_unfolding_all rfl
  · with_unfolding_all rfl
  · with_unfolding_all rfl

/-- Claim C10 counterexample: an edge grid with two one-dimensional
cells and two points that both fall in the first cell.  The second
cell has count zero, and `histogramdd_volumes` neither fails nor
assigns it volume 0: the element-wise division `1/(H*2)` silently
divides by zero there and the returned vector carries the non-finite
value (modelled as `none`) in that slot. -/
theorem c10_counterexample :
    countCell [[0, 1, 2]] [[1/2], [1/2]] [1] = 0
    ∧ histogramdd_volumes [[0, 1, 2]] [[1/2], [1/2]] = [some (1/4), none] := by
  constructor
  · with_unfolding_all rfl
  · with_unfolding_all rfl

/-- A linspace with `n` requested samples has `n` entries. -/
theorem linspace_length (a b : ℚ) (n : ℕ) : (linspace a b n).length = n := by
  match n with
  | 0 => rfl
  | 1 => rfl
  | Nat.succ (Nat.succ m) => simp [linspace]

/-- Entry `i` of a linspace with at least two samples. -/
theorem linspace_getElem? (a b : ℚ) (m i : ℕ) (hi : i < m + 2) :
    (linspace a b (m + 2))[i]? = some (a + (i : ℚ) * (b - a) / ((m : ℚ) + 1)) := by
  show ((List.range (m + 2)).map
      (fun i : ℕ => a + (i : ℚ) * (b - a) / ((m : ℚ) + 1)))[i]? = _
  rw [List.getElem?_map, List.getElem?_range hi]
  rfl

/-- Dropping the first and last entry of `linspace L R (n+2)` yields
the `n`-point linspace over the one-step-shrunk interval. -/
theorem linspace_interior (L R : ℚ) (n : ℕ) (hn : 0 < n) :
    ((linspace L R (n + 2)).drop 1).dropLast
      = linspace (L + (R - L) / ((n : ℚ) + 1)) (R - (R - L) / ((n : ℚ) + 1)) n := by
  have hlen1 : ((linspace L R (n + 2)).drop 1).length = n + 1 := by
    simp [List.length_drop, linspace_length]
  apply List.ext_getElem?
  intro i
  by_cases hi : i < n
  · have hlhs : (((linspace L R (n + 2)).drop 1).dropLast)[i]?
        = some (L + ((1 + i : ℕ) : ℚ) * (R - L) / ((n : ℚ) + 1)) := by
      rw [List.dropLast_eq_take, hlen1, List.getElem?_take, if_pos (by omega),
        List.getElem?_drop, linspace_getElem? L R n (1 + i) (by omega)]
    rw [hlhs]
    match n, hn with
    | 1, _ =>
      interval_cases i
      show _ = some (L + (R - L) / ((1 : ℚ) + 1))
      norm_num
    | (m + 2), _ =>
      rw [linspace_getElem? _ _ m i (by omega)]
      congr 1
      have hm1 : ((m : ℚ) + 1) ≠ 0 := by positivity
      push_cast
      field_simp
      ring
  · have h1 : (((linspace L R (n + 2)).drop 1).dropLast).length ≤ i := by
      simp [List.length_dropLast, List.length_drop, linspace_length]; omega
    have h2 : (linspace (L + (R - L) / ((n : ℚ) + 1))
        (R - (R - L) / ((n : ℚ) + 1)) n).length ≤ i := by
      rw [linspace_length]; omega
    rw [List.getElem?_eq_none h1, List.getElem?_eq_none h2]

/-- Claim C1 (corrected): whenever `center_and_layer1_points` returns
a grid, each dimension's ladder is `linspace(layer1_left, layer1_right,
cellsPerEdge+2)` with the half-cell margin `rect_width/(2*cellsPerEdge)`
on each side, it has exactly `cellsPerEdge + 2` entries, and its
interior sub-range (elements `1..-2`) is the linspace over the
HALF-CELL-SHRUNK hyperrectangle bounds
`[rect_lo + rect_width/(2*cellsPerEdge), rect_hi - rect_width/(2*cellsPerEdge)]`
(the interior cell centers) — not over the hyperrectangle bounds
themselves as claimed. -/
theorem c1_interior_cell_centers (cpe : List ℕ) (center : List ℚ) (r : ℚ)
    (dom : List (ℚ × ℚ)) (pts : Option NpArr) (ladders : List (List ℚ)) (d n : ℕ)
    (hcall : center_and_layer1_points cpe center r dom = some (pts, ladders))
    (hd : d < dom.length) (hn : cpe.getD d 0 = n) (hn0 : 0 < n) :
    ladders.getD d []
        = linspace (layer1Lo cpe center r dom d) (layer1Hi cpe center r dom d) (n + 2)
    ∧ (ladders.getD d []).length = n + 2
    ∧ ((ladders.getD d []).drop 1).dropLast
        = linspace (rectLo center r dom d + rectW r dom d / (2 * (n : ℚ)))
            (rectHi center r dom d - rectW r dom d / (2 * (n : ℚ))) n := by
  subst hn
  unfold center_and_layer1_points at hcall
  split_ifs at hcall
  simp only [Option.some.injEq, Prod.mk.injEq] at hcall
  obtain ⟨-, hlad⟩ := hcall
  have hget : ladders.getD d [] = int_l1 cpe center r dom d := by
    rw [← hlad, List.getD_eq_getElem?_getD, List.getElem?_map,
      List.getElem?_range hd]
    rfl
  have h1 : ladders.getD d []
      = linspace (layer1Lo cpe center r dom d) (layer1Hi cpe center r dom d)
          (cpe.getD d 0 + 2) := hget
  refine ⟨h1, ?_, ?_⟩
  · rw [h1, linspace_length]
  · rw [h1, linspace_interior _ _ _ hn0]
    have hne : ((cpe.getD d 0 : ℚ)) ≠ 0 := by
      exact_mod_cast Nat.pos_iff_ne_zero.mp hn0
    have hne1 : ((cpe.getD d 0 : ℚ)) + 1 ≠ 0 := by positivity
    congr 1 <;>
    · simp only [layer1Lo, layer1Hi, rectLo, rectHi]
      generalize hk : ((cpe.getD d 0 : ℕ) : ℚ) = k at hne hne1 ⊢
      generalize center.getD d 0 = c
      generalize rectW r dom d = w
      field_simp
      ring

/-- Claim C1 witness: the amended interior characterization
instantiated at the spec's concrete 2-D scenario (domain `[0,1]²`,
center `(1/2,1/2)`, ratio `1/2`, two cells per edge): the call
succeeds with per-axis ladder `[1/8, 3/8, 5/8, 7/8]` (margin layers at
`0.125` and `0.875`), and its interior `[3/8, 5/8]` is the linspace
over the half-cell-shrunk bounds. -/
theorem c1_interior_cell_centers_witness :
    center_and_layer1_points [2, 2] [1/2, 1/2] (1/2) [(0, 1), (0, 1)]
      = some (meshgrid_vstack [[1/8, 3/8, 5/8, 7/8], [1/8, 3/8, 5/8, 7/8]],
          [[1/8, 3/8, 5/8, 7/8], [1/8, 3/8, 5/8, 7/8]])
    ∧ ((([[1/8, 3/8, 5/8, 7/8], [1/8, 3/8, 5/8, 7/8]] : List (List ℚ)).getD 0 []).drop 1).dropLast
        = linspace (rectLo [1/2, 1/2] (1/2) [(0, 1), (0, 1)] 0
              + rectW (1/2) [(0, 1), (0, 1)] 0 / (2 * ((2 : ℕ) : ℚ)))
            (rectHi [1/2, 1/2] (1/2) [(0, 1), (0, 1)] 0
              - rectW (1/2) [(0, 1), (0, 1)] 0 / (2 * ((2 : ℕ) : ℚ))) 2 := by
  have h : center_and_layer1_points [2, 2] [1/2, 1/2] (1/2) [(0, 1), (0, 1)]
      = some (meshgrid_vstack [[1/8, 3/8, 5/8, 7/8], [1/8, 3/8, 5/8, 7/8]],
          [[1/8, 3/8, 5/8, 7/8], [1/8, 3/8, 5/8, 7/8]]) := by with_unfolding_all rfl
  exact ⟨h, (c1_interior_cell_centers [2, 2] [1/2, 1/2] (1/2) [(0, 1), (0, 1)]
    _ _ 0 2 h (by decide) rfl (by decide)).2.2⟩

/-- Claim C1 counterexample: at the spec's own concrete scenario the
interior sub-range (elements `1..-2`) of the per-axis ladder is
`[3/8, 5/8]`, while the linspace over the hyperrectangle bounds
`[rect_lo, rect_hi] = [1/4, 3/4]` is `[1/4, 3/4]` — the two disagree,
so the interior does NOT match the linspace over the hyperrectangle
bounds. -/
theorem c1_counterexample :
    ((center_and_layer1_points [2, 2] [1/2, 1/2] (1/2) [(0, 1), (0, 1)]).map
        (fun pr => ((pr.2.getD 0 []).drop 1).dropLast))
      = some [3/8, 5/8]
    ∧ linspace (rectLo [1/2, 1/2] (1/2) [(0, 1), (0, 1)] 0)
        (rectHi [1/2, 1/2] (1/2) [(0, 1), (0, 1)] 0) 2 = [1/4, 3/4]
    ∧ ¬ (([3/8, 5/8] : List ℚ) = [1/4, 3/4]) := by
  refine ⟨?_, ?_, ?_⟩
  · with_unfolding_all rfl
  · with_unfolding_all rfl
  · norm_num

/-- Claim C5 (confirmed): `histogramdd_volumes` returns one volume per
histogram cell (in the row-major order of `H.ravel()`), and — under the
precondition that the `j`-th point lies in the `j`-th cell of that
flattened order — the `j`-th volume equals
`1 / (count_in_its_cell * totalPointCount)`, where the count is the
number of points binned into that point's own cell. -/
theorem c5_volume_per_point (edges points : List (List ℚ)) (j : ℕ)
    (p : List ℚ) (c : List ℕ)
    (hp : points[j]? = some p)
    (hc : (allCells edges)[j]? = some c)
    (hord : cellOf edges p = some c)
    (hpos : 0 < countCell edges points c) :
    (histogramdd_volumes edges points).length = (allCells edges).length
    ∧ (histogramdd_volumes edges points)[j]?
        = some (some (1 / ((countCell edges points c : ℚ) * (points.length : ℚ)))) := by
  constructor
  · simp [histogramdd_volumes]
  · have hj : j < points.length := by
      by_contra h
      push_neg at h
      rw [List.getElem?_eq_none h] at hp
      cases hp
    have h1 : ((countCell edges points c : ℕ) : ℚ) ≠ 0 :=
      Nat.cast_ne_zero.mpr (Nat.pos_iff_ne_zero.mp hpos)
    have h2 : ((points.length : ℕ) : ℚ) ≠ 0 := Nat.cast_ne_zero.mpr (by omega)
    simp only [histogramdd_volumes]
    rw [List.getElem?_map, hc]
    simp [mul_ne_zero h1 h2]
    exact ⟨by omega, List.ne_nil_of_length_pos (by omega)⟩

/-- Claim C5 witness: one-dimensional edges `[0,1,2]`, points
`[[1/2],[3/2]]` in grid order (point 0 in cell 0, point 1 in cell 1);
point 0's volume is `1/(1*2) = 1/2`. -/
theorem c5_volume_per_point_witness :
    ([[1/2], [3/2]] : List (List ℚ))[0]? = some [1/2]
    ∧ cellOf [[0, 1, 2]] [1/2] = some [0]
    ∧ 0 < countCell [[0, 1, 2]] [[1/2], [3/2]] [0]
    ∧ (histogramdd_volumes [[0, 1, 2]] [[1/2], [3/2]])[0]? = some (some (1/2)) := by
  have hp : ([[1/2], [3/2]] : List (List ℚ))[0]? = some [1/2] := by
    with_unfolding_all rfl
  have hc : (allCells [[(0 : ℚ), 1, 2]])[0]? = some [0] := by
    with_unfolding_all rfl
  have hord : cellOf [[(0 : ℚ), 1, 2]] [1/2] = some [0] := by
    with_unfolding_all rfl
  have hcount : countCell [[(0 : ℚ), 1, 2]] [[1/2], [3/2]] [0] = 1 := by
    with_unfolding_all rfl
  have hpos : 0 < countCell [[(0 : ℚ), 1, 2]] [[1/2], [3/2]] [0] := by
    rw [hcount]; exact Nat.one_pos
  refine ⟨hp, hord, hpos, ?_⟩
  have h := (c5_volume_per_point [[0, 1, 2]] [[1/2], [3/2]] 0 [1/2] [0]
    hp hc hord hpos).2
  rw [h, hcount]
  with_unfolding_all rfl

/-- Claim C10 (corrected): whenever a histogram cell contains zero
points, `histogramdd_volumes` does not fail and does not assign that
cell volume 0 — the element-wise division `1/(H*N)` silently divides
by zero, and the corresponding entry of the returned vector is the
non-finite float value (modelled as `none`). -/
theorem c10_zero_cell_nonfinite (edges points : List (List ℚ)) (j : ℕ)
    (c : List ℕ)
    (hc : (allCells edges)[j]? = some c)
    (h0 : countCell edges points c = 0) :
    (histogramdd_volumes edges points)[j]? = some none := by
  simp only [histogramdd_volumes]
  rw [List.getElem?_map, hc]
  simp [h0]

/-- Claim C10 witness: the degenerate second cell of edges `[0,1,2]`
with both points in the first cell. -/
theorem c10_zero_cell_nonfinite_witness :
    (allCells [[(0 : ℚ), 1, 2]])[1]? = some [1]
    ∧ countCell [[(0 : ℚ), 1, 2]] [[1/2], [1/2]] [1] = 0
    ∧ (histogramdd_volumes [[0, 1, 2]] [[1/2], [1/2]])[1]? = some none := by
  have hc : (allCells [[(0 : ℚ), 1, 2]])[1]? = some [1] := by
    with_unfolding_all rfl
  have h0 : countCell [[(0 : ℚ), 1, 2]] [[1/2], [1/2]] [1] = 0 := by
    with_unfolding_all rfl
  exact ⟨hc, h0, c10_zero_cell_nonfinite [[0, 1, 2]] [[1/2], [1/2]] 1 [1] hc h0⟩
